import Mathlib

/-!
Verification of the reactive-state store of this repository.

The store under scrutiny is the simplified core implementation shipped in the
repository (second version): the `atom(read, write)` constructor, the per-atom
state map of `getAtomState`, and the three operations `readAtom`, `notify` and
`writeAtom`.  The hook layer of `src/core/useAtom.ts` (`getAtomValue`,
`setAtom`, scope resolution) is embedded separately.

Embedding conventions:
* atoms are identity-compared in the source (the state map is keyed by the
  config object), so an atom is a `Nat` identity here and the universe of
  configs is a total map `Env`;
* the JavaScript `Set` objects (`listeners`, `dependents`) become
  insertion-ordered duplicate-free lists, matching `Set` iteration order;
* listeners are opaque callbacks in the source; here a listener is a `Nat`
  handle and invoking it appends the handle to a `fired` log in the store,
  so notification counts are observable;
* the source recurses without any guard (`readAtom` through `get`, `notify`
  through `dependents`, `writeAtom` through `set`), so every operation takes
  fuel and returns `none` when the fuel runs out, modelling non-termination;
* the store also carries an instrumentation counter `readCount` incremented
  exactly where the source invokes `atom.read(get)`, so the number of read
  function invocations is observable.
-/

/-- Atom identity: atoms are identity-compared, so they are keyed by `Nat`. -/
abbrev AtomId := Nat

/-- The JavaScript values that atom state holds in the modelled programs:
`undefined` (a derived atom has no `init`, so its fresh record holds
`value: undefined`) or a number. -/
inductive JSVal where
  | undefined
  | num (n : Int)
  deriving DecidableEq

/-- Numeric addition on modelled values; anything else is `undefined`. -/
def JSVal.add : JSVal → JSVal → JSVal
  | .num a, .num b => .num (a + b)
  | _, _ => .undefined

/-- The `update` argument of `writeAtom`: the source distinguishes function
updates from plain values with `typeof arg === 'function'`. -/
inductive Update where
  | val (v : JSVal)
  | fn (f : JSVal → JSVal)

/-- The mutable per-atom record built by `getAtomState`:
`{ value: atom.init, listeners: new Set(), dependents: new Set() }`. -/
structure AtomState where
  value : JSVal
  listeners : List Nat
  dependents : List AtomId

/-- The whole mutable world: the atom state map (total here; the source
creates each record lazily with the same default, which is observationally
identical), the log of listener invocations in order, and the instrumentation
counter of read function invocations. -/
structure Store where
  states : AtomId → AtomState
  fired : List Nat
  readCount : AtomId → Nat

/-- `atomState.value = v` on the record of atom `a`. -/
def Store.setValue (st : Store) (a : AtomId) (v : JSVal) : Store :=
  { st with states := fun x =>
      if x = a then { st.states x with value := v } else st.states x }

/-- `aState.dependents.add(atom)`: record `reader` as a dependent of
`target` (a `Set`, so adding an existing element is a no-op). -/
def Store.addDependent (st : Store) (target reader : AtomId) : Store :=
  { st with states := fun x =>
      if x = target then
        let s := st.states x
        { s with dependents :=
            if reader ∈ s.dependents then s.dependents
            else s.dependents ++ [reader] }
      else st.states x }

/-- `atomState.listeners.add(callback)`: what the mount effect of the
reference `useAtom` does when a component subscribes to atom `a`. -/
def Store.addListener (st : Store) (a : AtomId) (l : Nat) : Store :=
  { st with states := fun x =>
      if x = a then
        let s := st.states x
        { s with listeners :=
            if l ∈ s.listeners then s.listeners else s.listeners ++ [l] }
      else st.states x }

/-- `atomState.listeners.forEach((l) => l())`: run every listener of `a`,
which in this embedding appends each handle to the `fired` log in order. -/
def Store.runListeners (st : Store) (a : AtomId) : Store :=
  { st with fired := st.fired ++ (st.states a).listeners }

/-- Instrumentation: count one invocation of the read function of `a`. -/
def Store.incRead (st : Store) (a : AtomId) : Store :=
  { st with readCount := fun x =>
      if x = a then st.readCount x + 1 else st.readCount x }

/-- The tracked `get` a read function receives: state-passing and fallible
(`none` is fuel exhaustion of the unguarded recursion in the source). -/
abbrev Getter := AtomId → Store → Option (JSVal × Store)

/-- The untracked `get` a write function receives:
`(a) => getAtomState(a).value` reads the live state at call time. -/
abbrev WGetter := Store → AtomId → JSVal

/-- The `set` a write function receives. -/
abbrev Setter := AtomId → JSVal → Store → Option Store

/-- A write function, as stored in a config. -/
abbrev WriteFn := WGetter → Setter → Update → Store → Option Store

/-- An atom config as produced by the `atom(read, write)` constructor.
`init` is `undefined` for derived atoms (the object has no `init` field);
`write` is `none` for read-only atoms. -/
structure AtomConfig where
  init : JSVal
  read : Getter → Store → Option (JSVal × Store)
  write : Option WriteFn

/-- The universe of atom configs, keyed by identity. -/
abbrev Env := AtomId → AtomConfig

/-- The default write function `atom` installs on a primitive atom:
`(get, set, arg) => { if (typeof arg === 'function')
set(config, arg(get(config))) else set(config, arg) }`, where `config` is
the identity the closure captures. -/
def primitiveWrite (config : AtomId) : WriteFn :=
  fun get set arg st =>
    match arg with
    | .fn f => set config (f (get st config)) st
    | .val v => set config v st

/-- `atom(initialValue, write?)` with a non-function first argument:
`{ init: read, read: (get) => get(config), write: write || default }`. -/
def atomPrimitive (config : AtomId) (init : JSVal) (write : Option WriteFn) :
    AtomConfig :=
  { init := init
    read := fun get st => get config st
    write := some (write.getD (primitiveWrite config)) }

/-- `atom(read, write?)` with a function first argument: `{ read, write }`. -/
def atomDerived (read : Getter → Store → Option (JSVal × Store))
    (write : Option WriteFn) : AtomConfig :=
  { init := .undefined, read := read, write := write }

/-- `readAtom`, fuelled.  The inner `get`: a self-read returns the current
value of the own record; reading any other atom `x` first adds the current
atom to the dependents of `x` and then recursively reads `x` (no caching).
Then the read function runs (counted by `incRead`) and its result is stored
as the new value. -/
def readAtom (env : Env) : Nat → AtomId → Store → Option (JSVal × Store)
  | 0, _, _ => none
  | fuel + 1, a, st =>
    let get : Getter := fun x st1 =>
      if x = a then some ((st1.states a).value, st1)
      else readAtom env fuel x (st1.addDependent x a)
    match (env a).read get (st.incRead a) with
    | none => none
    | some (v, st2) => some (v, st2.setValue a v)

/-- `notify`, fuelled: recursively notify every dependent (skipping only a
self-edge, `if (d !== atom)`), then run the listeners of the atom itself.
The dependents list is read at entry; listeners never mutate the graph in
this embedding, so this matches the live-set iteration of the source. -/
def notify : Nat → AtomId → Store → Option Store
  | 0, _, _ => none
  | fuel + 1, a, st => do
    let st2 ← (st.states a).dependents.foldlM
      (fun acc d => if d = a then some acc else notify fuel d acc) st
    some (st2.runListeners a)

/-- `writeAtom`, fuelled: builds the untracked `get` and a `set` that either
commits to the own record and immediately notifies
(`atomState.value = v; notify(atom)`), or recursively writes another atom;
then invokes the write function of the atom with the update.  A missing
write function is a runtime type error in the source, modelled as `none`.
`set` forwards plain values (every modelled write function passes a plain
value to `set`); function updates enter through the top-level `update`. -/
def writeAtom (env : Env) : Nat → AtomId → Update → Store → Option Store
  | 0, _, _, _ => none
  | fuel + 1, a, u, st =>
    let get : WGetter := fun st1 x => (st1.states x).value
    let set : Setter := fun x v st1 =>
      if x = a then notify fuel a (st1.setValue x v)
      else writeAtom env fuel x (Update.val v) st1
    match (env a).write with
    | none => none
    | some w => w get set u st

/-- The store before any access: every record as `getAtomState` would create
it (`value: atom.init`, empty listener and dependent sets), empty fired log,
zero read counts. -/
def initStore (env : Env) : Store :=
  { states := fun a => { value := (env a).init, listeners := [], dependents := [] }
    fired := []
    readCount := fun _ => 0 }

/-!  The hook layer of `src/core/useAtom.ts`. -/

/-- The fields of the full store record that `getAtomValue` inspects:
`e` (read error), `p` (read promise), `w` (write promise) and `v` (value,
whose presence the source tests with `'v' in atomState`).  Errors and
promises are opaque to the hook, so they are `Nat` tags here. -/
structure HookAtomState where
  e : Option Nat
  p : Option Nat
  w : Option Nat
  v : Option Int
  deriving DecidableEq

/-- The observable outcome of `getAtomValue`: a returned value, or one of
the four thrown things. -/
inductive HookReadResult where
  | throwErr (x : Nat)
  | throwReadPromise (x : Nat)
  | throwWritePromise (x : Nat)
  | value (v : Int)
  | throwNoValue
  deriving DecidableEq

/-- `getAtomValue`: the guard chain of the source in order — throw the read
error, else throw the read promise, else throw the write promise, else
return the value when present, else throw the no-atom-value error. -/
def getAtomValue (s : HookAtomState) : HookReadResult :=
  match s.e with
  | some x => .throwErr x
  | none =>
    match s.p with
    | some x => .throwReadPromise x
    | none =>
      match s.w with
      | some x => .throwWritePromise x
      | none =>
        match s.v with
        | some v => .value v
        | none => .throwNoValue

/-- The precedence order the claim describes, written over the state shape
directly, to compare against the code path of `getAtomValue`. -/
def readPrecedence (s : HookAtomState) : HookReadResult :=
  match s.e, s.p, s.w, s.v with
  | some x, _, _, _ => .throwErr x
  | none, some x, _, _ => .throwReadPromise x
  | none, none, some x, _ => .throwWritePromise x
  | none, none, none, some v => .value v
  | none, none, none, none => .throwNoValue

/-- `isWritable`: `!!(atom as WritableAtom).write`. -/
def isWritable (env : Env) (a : AtomId) : Bool :=
  (env a).write.isSome

/-- What `setAtom` of the hook does with an update: delegate to the store
write operation (the delegated pair) when the atom is writable, otherwise
throw `new Error('not writable atom')`. -/
def setAtom (env : Env) (a : AtomId) (u : Update) :
    Except String (AtomId × Update) :=
  if isWritable env a then Except.ok (a, u)
  else Except.error "not writable atom"

/-- Scope labels are opaque. -/
abbrev Scope := Nat

/-- The scope the hook hands to `getScopeContext`: when the atom object has
an own `scope` property, it overwrites the `scope` argument
(`if ('scope' in atom) scope = atom.scope`). -/
def useAtomScope (atomScope : Option Scope) (argScope : Option Scope) :
    Option Scope :=
  match atomScope with
  | some s => some s
  | none => argScope

/-!  The asynchronous resolution tracker.  The full store that implements it
is not among the sources here (only the hook-level caller is), so it is
modelled from the spec. -/

/-- Modelled from the spec: the per-record state of the Async Resolution
Tracker, missing from the sources — a committed value and the
generation/epoch counter, "incremented on each new evaluation, checked
before commit". -/
structure AsyncRecord where
  value : Option Int
  generation : Nat
  deriving DecidableEq

/-- Modelled from the spec: starting a new asynchronous evaluation of a cell
increments the generation of the record and tags the in-flight computation
with the new generation. -/
def startEvaluation (r : AsyncRecord) : AsyncRecord × Nat :=
  ({ r with generation := r.generation + 1 }, r.generation + 1)

/-- Modelled from the spec: a settlement commits its value only when its tag
still equals the current generation of the record; a superseded settlement
is discarded ("only the most recent in-flight computation may commit"). -/
def commitSettlement (r : AsyncRecord) (tag : Nat) (v : Int) : AsyncRecord :=
  if tag = r.generation then { r with value := some v } else r

/-!  Concrete atom graphs used by the claims. -/

/-- Diamond graph: atom 0 is `atom(10)`; atom 1 is
`atom((get) => get(A) + 1)`; atom 2 is `atom((get) => get(A) + 2)`; atom 3
is `atom((get) => get(B) + get(C))`.  Other identities are unused. -/
def diamondEnv : Env := fun a =>
  if a = 0 then atomPrimitive 0 (.num 10) none
  else if a = 1 then
    atomDerived (fun get st =>
      match get 0 st with
      | some (v, st1) => some (v.add (.num 1), st1)
      | none => none) none
  else if a = 2 then
    atomDerived (fun get st =>
      match get 0 st with
      | some (v, st1) => some (v.add (.num 2), st1)
      | none => none) none
  else if a = 3 then
    atomDerived (fun get st =>
      match get 1 st with
      | some (b, st1) =>
        match get 2 st1 with
        | some (c, st2) => some (b.add c, st2)
        | none => none
      | none => none) none
  else atomPrimitive a .undefined none

/-- The diamond after mounting: a component listener (handle 0) subscribed
on atom 3 and one initial `readAtom` of atom 3 establishing the dependent
edges, exactly as the reference `useAtom` mount effect does. -/
def diamondMounted : Store :=
  match readAtom diamondEnv 10 3 ((initStore diamondEnv).addListener 3 0) with
  | some (_, st) => st
  | none => initStore diamondEnv

/-- The fired-listener log after `writeAtom(A, v)` on the mounted diamond. -/
def diamondFiredAfter (v : Int) : Option (List Nat) :=
  (writeAtom diamondEnv 10 0 (Update.val (.num v)) diamondMounted).map Store.fired

/-- Memoization probe: atom 0 is `atom(n)`; atom 1 is
`atom((get) => get(P) + get(P)... )` — here simply doubling,
`(get) => get(P) + get(P)` collapsed to one tracked read plus addition:
`(get) => { const p = get(P); return p + p }`. -/
def memoEnvAt (n : Int) : Env := fun a =>
  if a = 0 then atomPrimitive 0 (.num n) none
  else if a = 1 then
    atomDerived (fun get st =>
      match get 0 st with
      | some (p, st1) => some (p.add p, st1)
      | none => none) none
  else atomPrimitive a .undefined none

/-- Two consecutive `readAtom` calls on the derived atom 1 with no write in
between: the two returned values and the final store. -/
def memoTwoReads (n : Int) : Option (JSVal × JSVal × Store) :=
  match readAtom (memoEnvAt n) 10 1 (initStore (memoEnvAt n)) with
  | none => none
  | some (v1, st1) =>
    match readAtom (memoEnvAt n) 10 1 st1 with
    | none => none
    | some (v2, st2) => some (v1, v2, st2)

/-- Stale-edge probe: atom 0 is the flag `atom(1)`; atoms 1 and 2 are
`atom(b)` and `atom(c)`; atom 3 is
`atom((get) => get(S) === 1 ? get(B) : get(C))`, so its set of tracked reads
differs between the first evaluation (flag 1: reads 0 and 1) and the second
evaluation after the flag is written to 0 (reads 0 and 2). -/
def staleEnvAt (b c : Int) : Env := fun a =>
  if a = 0 then atomPrimitive 0 (.num 1) none
  else if a = 1 then atomPrimitive 1 (.num b) none
  else if a = 2 then atomPrimitive 2 (.num c) none
  else if a = 3 then
    atomDerived (fun get st =>
      match get 0 st with
      | some (s, st1) => if s = .num 1 then get 1 st1 else get 2 st1
      | none => none) none
  else atomPrimitive a .undefined none

/-- Read atom 3, write the flag to 0, read atom 3 again (its recomputation
now reads atoms 0 and 2 only); the resulting store. -/
def staleFinal (b c : Int) : Option Store :=
  match readAtom (staleEnvAt b c) 10 3 (initStore (staleEnvAt b c)) with
  | none => none
  | some (_, st1) =>
    match writeAtom (staleEnvAt b c) 10 0 (Update.val (.num 0)) st1 with
    | none => none
    | some st2 =>
      match readAtom (staleEnvAt b c) 10 3 st2 with
      | none => none
      | some (_, st3) => some st3

/-- Cycle probe: atom 0 is `atom((get) => get(Y))` and atom 1 is
`atom((get) => get(X))` — each transitively reads itself through the other. -/
def cycleEnv : Env := fun a =>
  if a = 0 then atomDerived (fun get st => get 1 st) none
  else if a = 1 then atomDerived (fun get st => get 0 st) none
  else atomPrimitive a .undefined none

/-- Coalescing probe: atom 0 is
`atom(0, (get, set, arg) => { set(config, v1); set(config, v2) })` — a
writable atom whose write function calls `set` on itself twice in one
synchronous pass. -/
def twoSetEnvAt (v1 v2 : Int) : Env := fun a =>
  if a = 0 then
    atomPrimitive 0 (.num 0) (some (fun _get set _u st =>
      match set 0 (.num v1) st with
      | some st1 => set 0 (.num v2) st1
      | none => none))
  else atomPrimitive a .undefined none

/-- The two-set atom with a component listener (handle 0) subscribed. -/
def twoSetMounted (v1 v2 : Int) : Store :=
  (initStore (twoSetEnvAt v1 v2)).addListener 0 0

/-- Fired log and final value after one `writeAtom` pass on the two-set
atom. -/
def twoSetAfterWrite (v1 v2 : Int) : Option (List Nat × JSVal) :=
  (writeAtom (twoSetEnvAt v1 v2) 10 0 (Update.val .undefined)
      (twoSetMounted v1 v2)).map
    (fun st => (st.fired, (st.states 0).value))

/-!  Helper lemmas. -/

/-- On the two-atom cycle, `readAtom` yields no result at any fuel: the
source recursion `readAtom → get → readAtom` never bottoms out. -/
theorem cycleReadNone (fuel : Nat) :
    ∀ st, readAtom cycleEnv fuel 0 st = none ∧
      readAtom cycleEnv fuel 1 st = none := by
  induction fuel with
  | zero => intro st; exact ⟨rfl, rfl⟩
  | succ n ih =>
    intro st
    constructor
    · show readAtom cycleEnv (n + 1) 0 st = none
      simp only [readAtom, cycleEnv]
      simp [atomDerived, (ih _).2]
    · show readAtom cycleEnv (n + 1) 1 st = none
      simp only [readAtom, cycleEnv]
      simp [atomDerived, (ih _).1]

/-!  The claims. -/

/-- Claim C1, counterexample.  In the mounted diamond (atoms 1 and 2 both
read atom 0, atom 3 reads both, one listener on atom 3), `writeAtom` on
atom 0 invokes the listener of atom 3 twice — once per dependent path — and
not exactly once as the claim states: `notify` has no per-pass visited
marker. -/
theorem c1_diamond_listener_fires_twice :
    (diamondFiredAfter 1).map (List.count 0) = some 2 ∧
      (diamondFiredAfter 1).map (List.count 0) ≠ some 1 := by
  decide

/-- Claim C1, amended: writing atom 0 of the diamond invokes the listener of
atom 3 once per dependent path reaching it — twice here — whatever value is
written. -/
theorem c1_listener_once_per_path (v : Int) :
    diamondFiredAfter v = some [0, 0] := rfl

/-- Claim C2, counterexample.  Two consecutive `readAtom` calls on the
settled derived atom 1 with no write in between leave its read function
invoked twice, not at most once: `readAtom` recomputes on every call
(`XXX no caching` in the source). -/
theorem c2_read_function_runs_twice :
    (memoTwoReads 10).map (fun r => r.2.2.readCount 1) = some 2 ∧
      ¬ (2 ≤ 1) := by
  decide

/-- Claim C2, amended: two consecutive reads of the derived atom do return
the identical value both times, but the read function runs once per read —
twice in total — because no memoization exists. -/
theorem c2_second_read_recomputes (n : Int) :
    (memoTwoReads n).map (fun r => (r.1, r.2.1, r.2.2.readCount 1))
      = some (.num (n + n), .num (n + n), 2) := rfl

/-- Claim C3, counterexample.  After the flag flips, the second evaluation
of atom 3 reads only atoms 0 and 2, yet atom 3 is still recorded as a
dependent of atom 1: the edge from the first evaluation is never discarded
(`XXX add only` in the source), and no `dependencies` set exists at all. -/
theorem c3_stale_dependent_edge_kept :
    (staleFinal 5 7).map
        (fun st => ((st.states 1).dependents.contains 3,
          (st.states 2).dependents.contains 3))
      = some (true, true) := by
  decide

/-- Claim C3, amended: dependent edges are add-only — after the
recomputation of atom 3 that reads atoms 0 and 2 only, its dependent edge
is present on every atom it has read in any evaluation (atoms 0, 1 and 2);
the record keeps no `dependencies` set, so no inverse invariant relates the
two directions. -/
theorem c3_dependent_edges_add_only (b c : Int) :
    (staleFinal b c).map
        (fun st => ((st.states 0).dependents, (st.states 1).dependents,
          (st.states 2).dependents))
      = some ([3], [3], [3]) := rfl

/-- Claim C4, counterexample.  On the two-atom cycle, reading atom 0 with
fuel 50 — far more than any fail-fast error path could need on a two-atom
graph — still yields no result: the source recurses unboundedly and no
dedicated cyclic-dependency error value exists anywhere in `readAtom`. -/
theorem c4_cycle_yields_no_fast_error :
    readAtom cycleEnv 50 0 (initStore cycleEnv) = none :=
  (cycleReadNone 50 (initStore cycleEnv)).1

/-- Claim C4, amended: a cell that transitively reads itself during its own
evaluation makes `readAtom` recurse without bound (no result at any fuel),
rather than failing fast with a dedicated cyclic-dependency error; nothing
is memoized because the evaluation never returns.  Only a direct self-read
is special-cased to return the current value. -/
theorem c4_cycle_recurses_unbounded (fuel : Nat) (st : Store) :
    readAtom cycleEnv fuel 0 st = none :=
  (cycleReadNone fuel st).1

/-- Claim C5, counterexample.  A write function that calls `set` on its own
atom twice in one synchronous pass makes the subscribed listener fire twice
— once per `set` call — not once per coalesced pass: `set` on the own atom
runs `notify` immediately. -/
theorem c5_listener_fires_per_set :
    twoSetAfterWrite 1 2 = some ([0, 0], JSVal.num 2) ∧
      List.count 0 [0, 0] ≠ 1 := by
  decide

/-- Claim C5, amended: each `set` call on the written atom triggers its own
immediate propagation pass, so a write function performing two `set` calls
fires the listener twice, and the final value is the second one written. -/
theorem c5_propagation_per_set_call (v1 v2 : Int) :
    twoSetAfterWrite v1 v2 = some ([0, 0], .num v2) := rfl

/-- Claim C6 (modelled from the spec).  Two evaluations are started on the
same record before either settles; the second settles first, then the
superseded first settles.  The stale commit is discarded by the generation
check, leaving the value of the second computation. -/
theorem c6_superseded_settlement_discarded (r0 : AsyncRecord) (v1 v2 : Int) :
    (commitSettlement
        (commitSettlement (startEvaluation (startEvaluation r0).1).1
          (startEvaluation (startEvaluation r0).1).2 v2)
        (startEvaluation r0).2 v1).value = some v2 := by
  simp [startEvaluation, commitSettlement]

/-- Claim C7.  The hook-level `setAtom` throws its not-writable error
exactly when the atom has no write function; a writable atom is delegated
to the store and never raises it. -/
theorem c7_not_writable_iff_no_write (env : Env) (a : AtomId) (u : Update) :
    setAtom env a u = Except.error "not writable atom"
      ↔ (env a).write = none := by
  unfold setAtom isWritable
  cases h : (env a).write <;> simp

/-- Claim C8.  For an atom carrying the default primitive write function,
writing a plain value and writing a constant function returning that value
produce identical stores at every fuel; moreover a function update is
applied to the current value before the commit-and-notify, while a plain
update is committed directly. -/
theorem c8_functional_update_equiv (env : Env) (a : AtomId)
    (h : (env a).write = some (primitiveWrite a)) (fuel : Nat) (st : Store)
    (v : JSVal) (f : JSVal → JSVal) :
    writeAtom env fuel a (Update.val v) st
        = writeAtom env fuel a (Update.fn (fun _ => v)) st ∧
      writeAtom env (fuel + 1) a (Update.fn f) st
        = notify fuel a (st.setValue a (f ((st.states a).value))) ∧
      writeAtom env (fuel + 1) a (Update.val v) st
        = notify fuel a (st.setValue a v) := by
  refine ⟨?_, ?_, ?_⟩
  · cases fuel with
    | zero => rfl
    | succ n => simp [writeAtom, h, primitiveWrite]
  · simp [writeAtom, h, primitiveWrite]
  · simp [writeAtom, h, primitiveWrite]

/-- A universe of plain primitive atoms, used to instantiate claim C8. -/
def primEnv : Env := fun a => atomPrimitive a (.num 0) none

/-- Claim C8 at a concrete instance: atom 5 of the primitive universe,
fuel 3, value 7. -/
theorem c8_functional_update_equiv_instance :
    writeAtom primEnv 3 5 (Update.val (.num 7)) (initStore primEnv)
      = writeAtom primEnv 3 5 (Update.fn (fun _ => .num 7)) (initStore primEnv) :=
  (c8_functional_update_equiv primEnv 5 rfl 3 (initStore primEnv) (.num 7)
    (fun _ => .num 1)).1

/-- Claim C9.  `getAtomValue` resolves in the fixed precedence order read
error, pending-read promise, pending-write promise, stored value,
no-atom-value error; in particular a pending write masks an already present
value, as the concrete state with both `w` and `v` set shows. -/
theorem c9_read_precedence_order :
    (∀ s, getAtomValue s = readPrecedence s) ∧
      getAtomValue { e := none, p := none, w := some 7, v := some 42 }
        = HookReadResult.throwWritePromise 7 := by
  constructor
  · intro s
    rcases s with ⟨e, p, w, v⟩
    cases e <;> cases p <;> cases w <;> cases v <;> rfl
  · rfl

/-- Claim C10.  When the atom object carries its own scope property, that
scope wins over the argument given to the hook, whatever the argument was;
the argument is only used when the atom carries none. -/
theorem c10_atom_scope_overrides_argument :
    (∀ s arg, useAtomScope (some s) arg = some s) ∧
      (∀ arg, useAtomScope none arg = arg) :=
  ⟨fun _ _ => rfl, fun _ => rfl⟩
